import Mathlib

/-!
Shallow embedding of the Window Solution Simulator client core
(types.ts, constants.ts, App.tsx): the catalog data model, the manual
selection cascade, the navigation state machine, admin catalog edits and
the two simulation run orchestrations.  Remote calls are modelled by
oracle arguments of type `Except String String` (error message or
payload); a JavaScript runtime crash (non-null assertion failure /
property access on `undefined`) is modelled by an `Option` result being
`none`.
-/

namespace WindowSim

/-- `ProductType` enum from types.ts. -/
inductive ProductType
  | verticalBlinds
  | rollerBlinds
  | curtains
deriving DecidableEq

/-- `CurtainStyle` enum from types.ts. -/
inductive CurtainStyle
  | sWave
  | pinchPleat
deriving DecidableEq

/-- `SimulationMode` enum from types.ts. -/
inductive SimulationMode
  | manual
  | auto
deriving DecidableEq

/-- The `AppStep` union type from App.tsx. -/
inductive AppStep
  | upload
  | selectProduct
  | configure
  | simulate
  | result
  | admin
deriving DecidableEq

/-- The `'day' | 'night' | 'original'` result-view toggle from App.tsx. -/
inductive ResultView
  | day
  | night
  | original
deriving DecidableEq

/-- `Color` interface from types.ts. -/
structure Color where
  id : String
  name : String
  hex : String
deriving DecidableEq

/-- `Product` interface from types.ts. -/
structure Product where
  id : String
  name : String
  colors : List Color
deriving DecidableEq

/-- `FabricCompany` interface from types.ts. -/
structure FabricCompany where
  id : String
  name : String
  products : List Product
deriving DecidableEq

/-- `ManualSelection` interface from types.ts. -/
structure ManualSelection where
  fabricCompanyId : String
  productId : String
  colorId : String
deriving DecidableEq

/-- `SimulationResult` interface from types.ts. -/
structure SimulationResult where
  dayImage : Option String
  nightImage : Option String
  recommendationText : Option String
deriving DecidableEq

/-- The `UploadedFile` interface from App.tsx. -/
structure UploadedFile where
  base64 : String
  name : String
  mimeType : String
deriving DecidableEq

/-- `Record<ProductType, FabricCompany[]>`: the catalog, one ordered
company bucket per product type. -/
structure Catalog where
  verticalBlinds : List FabricCompany
  rollerBlinds : List FabricCompany
  curtains : List FabricCompany
deriving DecidableEq

/-- Indexing `fabricData[type]`. -/
def Catalog.get (c : Catalog) : ProductType → List FabricCompany
  | .verticalBlinds => c.verticalBlinds
  | .rollerBlinds => c.rollerBlinds
  | .curtains => c.curtains

/-- Replacing one bucket of the catalog, `newData[activeTab] = l`. -/
def Catalog.set (c : Catalog) : ProductType → List FabricCompany → Catalog
  | .verticalBlinds, l => { c with verticalBlinds := l }
  | .rollerBlinds, l => { c with rollerBlinds := l }
  | .curtains, l => { c with curtains := l }

/-- `MOCK_DATA` seed catalog from constants.ts. -/
def MOCK_DATA : Catalog :=
  { verticalBlinds :=
      [ { id := "vb-fc1", name := "Sun-Kissed Fabrics",
          products :=
            [ { id := "vb-p1", name := "Classic Vinyl",
                colors :=
                  [ { id := "vb-c1", name := "Alabaster White", hex := "#F0EBE3" },
                    { id := "vb-c2", name := "Urban Grey", hex := "#A9A9A9" },
                    { id := "vb-c3", name := "Coastal Beige", hex := "#EED9C4" } ] },
              { id := "vb-p2", name := "Textured Weave",
                colors :=
                  [ { id := "vb-c4", name := "Oatmeal", hex := "#D2B48C" },
                    { id := "vb-c5", name := "Charcoal", hex := "#36454F" } ] } ] } ],
    rollerBlinds :=
      [ { id := "rb-fc1", name := "Modern Shade Co.",
          products :=
            [ { id := "rb-p1", name := "Blackout Pro",
                colors :=
                  [ { id := "rb-c1", name := "Midnight Blue", hex := "#003366" },
                    { id := "rb-c2", name := "Pure White", hex := "#FFFFFF" },
                    { id := "rb-c3", name := "Slate Grey", hex := "#708090" } ] },
              { id := "rb-p2", name := "Light-Filtering Linen",
                colors :=
                  [ { id := "rb-c4", name := "Natural Linen", hex := "#FAF0E6" },
                    { id := "rb-c5", name := "Seafoam Green", hex := "#93E9BE" } ] } ] },
        { id := "rb-fc2", name := "Eco Weaves",
          products :=
            [ { id := "rb-p3", name := "Recycled Fiber",
                colors :=
                  [ { id := "rb-c6", name := "Earth Brown", hex := "#5C4033" },
                    { id := "rb-c7", name := "Forest Green", hex := "#228B22" } ] } ] } ],
    curtains :=
      [ { id := "c-fc1", name := "Drapery Dreams",
          products :=
            [ { id := "c-p1", name := "Velvet Luxe",
                colors :=
                  [ { id := "c-c1", name := "Ruby Red", hex := "#9B111E" },
                    { id := "c-c2", name := "Emerald Green", hex := "#50C878" },
                    { id := "c-c3", name := "Royal Purple", hex := "#7851A9" } ] },
              { id := "c-p2", name := "Sheer Elegance",
                colors :=
                  [ { id := "c-c4", name := "Ivory Sheer", hex := "#FFFFF0" },
                    { id := "c-c5", name := "Champagne Glow", hex := "#F7E7CE" } ] } ] } ] }

/-- The aggregate of App.tsx's `useState` hooks (the Session). -/
structure Session where
  step : AppStep
  uploadedFile : Option UploadedFile
  productType : Option ProductType
  simulationMode : Option SimulationMode
  manualSelection : Option ManualSelection
  simulationResult : Option SimulationResult
  isLoading : Bool
  loadingText : String
  error : Option String
  activeResultView : ResultView
  fabricData : Catalog
  curtainStyle : CurtainStyle
deriving DecidableEq

/-- `handleReset` from App.tsx: sets step to upload and clears the
uploaded file, product type, mode, selection, result, loading flag and
error.  (It touches neither `loadingText` nor `activeResultView` nor
`fabricData` nor `curtainStyle`.) -/
def handleReset (s : Session) : Session :=
  { s with
    step := .upload
    uploadedFile := none
    productType := none
    simulationMode := none
    manualSelection := none
    simulationResult := none
    isLoading := false
    error := none }

/-- `handleBack` from App.tsx: result to configure, configure to
select product, select product or admin to upload, otherwise no change;
only `step` is written. -/
def handleBack (s : Session) : Session :=
  if s.step = .result then { s with step := .configure }
  else if s.step = .configure then { s with step := .selectProduct }
  else if s.step = .selectProduct ∨ s.step = .admin then { s with step := .upload }
  else s

/-- The step-to-step map realised by `handleBack`, for stating the
frame property. -/
def backStep : AppStep → AppStep
  | .result => .configure
  | .configure => .selectProduct
  | .selectProduct => .upload
  | .admin => .upload
  | .upload => .upload
  | .simulate => .simulate

/-- The selection computed by `handleProductSelect` in App.tsx.  Outer
`none` models the runtime crash when the first company has no product or
its first product has no color (`products[0]` / `colors[0]` on an empty
array gives `undefined`); inner `none` is `setManualSelection(null)` for
an empty bucket. -/
def initSelection (catalog : Catalog) (t : ProductType) :
    Option (Option ManualSelection) :=
  match catalog.get t with
  | [] => some none
  | c :: _ =>
    match c.products with
    | [] => none
    | p :: _ =>
      match p.colors with
      | [] => none
      | col :: _ =>
        some (some { fabricCompanyId := c.id, productId := p.id, colorId := col.id })

/-- The three keys of `ManualSelection` that `handleSelectionChange`
can be called with. -/
inductive SelectionKey
  | fabricCompanyId
  | productId
  | colorId
deriving DecidableEq

/-- The spread-update `\x7b...manualSelection, [key]: value\x7d`. -/
def setKey (sel : ManualSelection) : SelectionKey → String → ManualSelection
  | .fabricCompanyId, v => { sel with fabricCompanyId := v }
  | .productId, v => { sel with productId := v }
  | .colorId, v => { sel with colorId := v }

/-- `handleSelectionChange` from the ConfigurationPanel in App.tsx;
`companies` is `fabricData[productType]`.  `none` models the crash of a
non-null assertion (`find(...)!`) failing or of `[0]` indexing an empty
array. -/
def handleSelectionChange (companies : List FabricCompany)
    (sel : ManualSelection) (key : SelectionKey) (value : String) :
    Option ManualSelection :=
  let newSelection := setKey sel key value
  match key with
  | .fabricCompanyId =>
    match companies.find? (fun c => c.id == value) with
    | none => none
    | some newCompany =>
      match newCompany.products with
      | [] => none
      | p :: _ =>
        match p.colors with
        | [] => none
        | col :: _ => some { newSelection with productId := p.id, colorId := col.id }
  | .productId =>
    match companies.find? (fun c => c.id == sel.fabricCompanyId) with
    | none => none
    | some selectedCompany =>
      match selectedCompany.products.find? (fun p => p.id == value) with
      | none => none
      | some newProduct =>
        match newProduct.colors with
        | [] => none
        | col :: _ => some { newSelection with colorId := col.id }
  | .colorId => some newSelection

/-- Apply `f` to the first list element satisfying `p`, leaving the rest
unchanged: the effect of mutating the object returned by `find` inside a
freshly deep-copied array. -/
def updateFirst (p : α → Bool) (f : α → α) : List α → List α
  | [] => []
  | x :: xs => if p x then f x :: xs else x :: updateFirst p f xs

/-- `handleAddColor` from the AdminPanel in App.tsx.  `colorName` and
`colorHex` are the two prompt answers ("" models a cancelled or empty
prompt, an early return); `newId` is the generated `c-Date.now()` id.
`none` models the crash when the company lookup returns `undefined`
(`company.products` throws) or the product lookup does
(`product.colors.push` throws); in either case `setFabricData` is never
reached, so the stored catalog is unchanged. -/
def handleAddColor (fabricData : Catalog) (activeTab : ProductType)
    (companyId productId : String) (colorName colorHex : String)
    (newId : String) : Option Catalog :=
  if colorName = "" then some fabricData
  else if colorHex = "" then some fabricData
  else
    let newColor : Color := { id := newId, name := colorName, hex := colorHex }
    let bucket := fabricData.get activeTab
    match bucket.find? (fun c => c.id == companyId) with
    | none => none
    | some company =>
      match company.products.find? (fun p => p.id == productId) with
      | none => none
      | some _ =>
        some (fabricData.set activeTab
          (updateFirst (fun c => c.id == companyId)
            (fun c =>
              { c with
                products := updateFirst (fun p => p.id == productId)
                  (fun p => { p with colors := p.colors ++ [newColor] })
                  c.products })
            bucket))

/-- The React state after the add-color click: the new catalog when the
handler ran to completion, the previous one when it crashed first. -/
def addColorState (fabricData : Catalog) (activeTab : ProductType)
    (companyId productId : String) (colorName colorHex : String)
    (newId : String) : Catalog :=
  (handleAddColor fabricData activeTab companyId productId colorName colorHex newId).getD
    fabricData

/-- Look a product up the way the panel and handlers do: first company
with the id, then first product with the id under it. -/
def findProduct (catalog : Catalog) (t : ProductType)
    (companyId productId : String) : Option Product :=
  match (catalog.get t).find? (fun c => c.id == companyId) with
  | none => none
  | some c => c.products.find? (fun p => p.id == productId)

/-- One remote call of geminiService.ts, as issued by a run. -/
inductive RemoteRequest
  | recommendation
  | composite (isDay : Bool) (colorLabel productLabel : String)
deriving DecidableEq

/-- What one run did: the Session it left behind, the remote requests it
issued in order, and the loading-stage labels it set in order. -/
structure RunTrace where
  finalSession : Session
  requests : List RemoteRequest
  stages : List String
deriving DecidableEq

/-- The `company?.products.find` chain of runManualSimulation. -/
def lookupProduct (s : Session) (pt : ProductType) (sel : ManualSelection) :
    Option Product :=
  ((s.fabricData.get pt).find? (fun fc => fc.id == sel.fabricCompanyId)).bind
    (fun c => c.products.find? (fun p => p.id == sel.productId))

/-- The `product?.colors.find` chain of runManualSimulation. -/
def lookupColor (s : Session) (pt : ProductType) (sel : ManualSelection) :
    Option Color :=
  (lookupProduct s pt sel).bind (fun p => p.colors.find? (fun c => c.id == sel.colorId))

/-- `runManualSimulation` from App.tsx, with the two
`simulateWindowCovering` awaits replaced by the oracles `dayR` and
`nightR` (`Except.error msg` is a rejected promise whose message is
`msg`). -/
def runManualSimulation (s : Session) (dayR nightR : Except String String) :
    RunTrace :=
  match s.uploadedFile, s.productType, s.manualSelection with
  | some _, some pt, some sel =>
    let s1 : Session :=
      { s with isLoading := true, step := .simulate, simulationResult := none }
    match lookupColor s pt sel, lookupProduct s pt sel with
    | some col, some prod =>
      match dayR with
      | .error msg =>
        { finalSession :=
            { s1 with
              loadingText := "Simulating daytime view..."
              error := some msg
              step := .configure
              isLoading := false }
          requests := [.composite true col.name prod.name]
          stages := ["Simulating daytime view..."] }
      | .ok dayImage =>
        match nightR with
        | .error msg =>
          { finalSession :=
              { s1 with
                loadingText := "Simulating nighttime view..."
                error := some msg
                step := .configure
                isLoading := false }
            requests :=
              [.composite true col.name prod.name, .composite false col.name prod.name]
            stages := ["Simulating daytime view...", "Simulating nighttime view..."] }
        | .ok nightImage =>
          { finalSession :=
              { s1 with
                loadingText := "Simulating nighttime view..."
                simulationResult :=
                  some { dayImage := some dayImage, nightImage := some nightImage,
                         recommendationText := none }
                step := .result
                activeResultView := .day
                isLoading := false }
            requests :=
              [.composite true col.name prod.name, .composite false col.name prod.name]
            stages := ["Simulating daytime view...", "Simulating nighttime view..."] }
    | _, _ =>
      { finalSession :=
          { s1 with
            error := some "Could not find product details."
            isLoading := false
            step := .configure }
        requests := []
        stages := [] }
  | _, _, _ => { finalSession := s, requests := [], stages := [] }

/-- `runAutoSimulation` from App.tsx, with `generateRecommendation` and
the two `simulateWindowCovering` awaits replaced by the oracles. -/
def runAutoSimulation (s : Session) (recR dayR nightR : Except String String) :
    RunTrace :=
  match s.uploadedFile, s.productType with
  | some _, some _ =>
    let s1 : Session :=
      { s with isLoading := true, step := .simulate, simulationResult := none }
    match recR with
    | .error msg =>
      { finalSession :=
          { s1 with
            loadingText := "Generating AI recommendation..."
            error := some msg
            step := .configure
            isLoading := false }
        requests := [.recommendation]
        stages := ["Generating AI recommendation..."] }
    | .ok recommendation =>
      match dayR with
      | .error msg =>
        { finalSession :=
            { s1 with
              loadingText := "Simulating daytime view..."
              error := some msg
              step := .configure
              isLoading := false }
          requests :=
            [.recommendation, .composite true "AI suggested color" "AI suggested style"]
          stages := ["Generating AI recommendation...", "Simulating daytime view..."] }
      | .ok dayImage =>
        match nightR with
        | .error msg =>
          { finalSession :=
              { s1 with
                loadingText := "Simulating nighttime view..."
                error := some msg
                step := .configure
                isLoading := false }
            requests :=
              [.recommendation,
               .composite true "AI suggested color" "AI suggested style",
               .composite false "AI suggested color" "AI suggested style"]
            stages :=
              ["Generating AI recommendation...", "Simulating daytime view...",
               "Simulating nighttime view..."] }
        | .ok nightImage =>
          { finalSession :=
              { s1 with
                loadingText := "Simulating nighttime view..."
                simulationResult :=
                  some { dayImage := some dayImage, nightImage := some nightImage,
                         recommendationText := some recommendation }
                step := .result
                activeResultView := .day
                isLoading := false }
            requests :=
              [.recommendation,
               .composite true "AI suggested color" "AI suggested style",
               .composite false "AI suggested color" "AI suggested style"]
            stages :=
              ["Generating AI recommendation...", "Simulating daytime view...",
               "Simulating nighttime view..."] }
  | _, _ => { finalSession := s, requests := [], stages := [] }

/-- `shouldShowBackButton` from App.tsx. -/
def shouldShowBackButton (s : Session) : Bool :=
  s.step != .upload && !s.isLoading

/-- `shouldShowResetButton` from App.tsx. -/
def shouldShowResetButton (s : Session) : Bool :=
  s.step != .upload && !s.isLoading && s.step != .admin

/-- The header logo's click handler: App.tsx passes
`onLogoClick := handleReset` to the always-rendered Header, whose title
carries the click unconditionally, so this transition is available in
every state — the loading flag does not gate it. -/
def logoClick : Session → Session := handleReset

/-- Does a request list hold a night composite call? -/
def hasNightRequest (l : List RemoteRequest) : Bool :=
  l.any fun r =>
    match r with
    | .composite false _ _ => true
    | _ => false

/-- Does a request list hold a day composite call? -/
def hasDayRequest (l : List RemoteRequest) : Bool :=
  l.any fun r =>
    match r with
    | .composite true _ _ => true
    | _ => false

/-- A concrete mid-flow session used to instantiate the theorems. -/
def baseSession : Session :=
  { step := .configure
    uploadedFile := some { base64 := "QkFTRTY0", name := "window.jpg", mimeType := "image/jpeg" }
    productType := some .curtains
    simulationMode := some .manual
    manualSelection := some { fabricCompanyId := "c-fc1", productId := "c-p1", colorId := "c-c1" }
    simulationResult := none
    isLoading := false
    loadingText := ""
    error := none
    activeResultView := .day
    fabricData := MOCK_DATA
    curtainStyle := .sWave }

/-- Setting a bucket and reading it back gives the new bucket. -/
theorem Catalog.get_set (c : Catalog) (t : ProductType) (l : List FabricCompany) :
    (c.set t l).get t = l := by
  cases t <;> rfl

/-- `find?` looks through `updateFirst` at the updated element, provided
the update keeps the predicate true. -/
theorem find?_updateFirst (p : α → Bool) (f : α → α) :
    ∀ (l : List α) (a : α), l.find? p = some a → p (f a) = true →
      (updateFirst p f l).find? p = some (f a) := by
  intro l
  induction l with
  | nil => intro a h; simp [List.find?] at h
  | cons x xs ih =>
    intro a h hf
    cases hx : p x with
    | true =>
      rw [List.find?_cons_of_pos _ hx] at h
      cases h
      simp [updateFirst, hx, List.find?_cons_of_pos _ hf]
    | false =>
      have hnx : ¬ p x = true := by simp [hx]
      rw [List.find?_cons_of_neg _ hnx] at h
      simp only [updateFirst, hx, if_false, Bool.false_eq_true]
      rw [List.find?_cons_of_neg _ hnx]
      exact ih a h hf

/-- C6: back navigation leaves the uploaded image, product type, manual
selection and simulation result untouched and changes only the step
(result to configure, configure to select product, select product and
admin to upload, upload and simulate unchanged). -/
theorem back_frame :
    ∀ s : Session,
      (handleBack s).uploadedFile = s.uploadedFile ∧
      (handleBack s).productType = s.productType ∧
      (handleBack s).manualSelection = s.manualSelection ∧
      (handleBack s).simulationResult = s.simulationResult ∧
      (handleBack s).simulationMode = s.simulationMode ∧
      (handleBack s).isLoading = s.isLoading ∧
      (handleBack s).loadingText = s.loadingText ∧
      (handleBack s).error = s.error ∧
      (handleBack s).activeResultView = s.activeResultView ∧
      (handleBack s).fabricData = s.fabricData ∧
      (handleBack s).curtainStyle = s.curtainStyle ∧
      (handleBack s).step = backStep s.step := by
  intro s
  obtain ⟨st, uf, pt, sm, ms, sr, il, lt, er, arv, fd, cs⟩ := s
  cases st <;> simp [handleBack, backStep]

/-- C10: setting `colorId` performs no validation and no cascade: any
string, whether or not it names a color of the selected product, is
stored verbatim and only the `colorId` field changes. -/
theorem setColor_no_validation :
    ∀ (companies : List FabricCompany) (sel : ManualSelection) (v : String),
      handleSelectionChange companies sel .colorId v = some { sel with colorId := v } :=
  fun _ _ _ => rfl

/-- C3 counterexample: reset does not clear the loading-stage label nor
the active result-view toggle; on a session whose label is the night
stage text and whose toggle is `night`, both survive `handleReset`. -/
theorem reset_stage_label_cex :
    (handleReset { baseSession with
        loadingText := "Simulating nighttime view...",
        activeResultView := .night }).loadingText ≠ "" ∧
    (handleReset { baseSession with
        loadingText := "Simulating nighttime view...",
        activeResultView := .night }).activeResultView ≠ .day := by
  exact ⟨by decide, by decide⟩

/-- C3 amended: reset sets the step to upload and clears the uploaded
image, product type, simulation mode, manual selection, simulation
result, loading flag and error message, while the catalog, the
loading-stage label and the active result-view toggle are left
unchanged. -/
theorem reset_frame :
    ∀ s : Session,
      (handleReset s).step = .upload ∧
      (handleReset s).uploadedFile = none ∧
      (handleReset s).productType = none ∧
      (handleReset s).simulationMode = none ∧
      (handleReset s).manualSelection = none ∧
      (handleReset s).simulationResult = none ∧
      (handleReset s).isLoading = false ∧
      (handleReset s).error = none ∧
      (handleReset s).fabricData = s.fabricData ∧
      (handleReset s).loadingText = s.loadingText ∧
      (handleReset s).activeResultView = s.activeResultView ∧
      (handleReset s).curtainStyle = s.curtainStyle :=
  fun _ => ⟨rfl, rfl, rfl, rfl, rfl, rfl, rfl, rfl, rfl, rfl, rfl, rfl⟩

/-- C1: the cascade of `handleSelectionChange`.  Choosing a company
found in the bucket yields the triple of that company, its first
product and that product's first color; choosing a product found under
the currently selected company keeps the company, stores the new
product and resets the color to the product's first color; choosing a
color changes only the color field.  No stale child survives a parent
change. -/
theorem setField_cascade :
    ∀ (companies : List FabricCompany) (sel : ManualSelection) (v : String),
      (∀ (c : FabricCompany) (p : Product) (ps : List Product)
          (col : Color) (cs : List Color),
        companies.find? (fun x => x.id == v) = some c →
        c.products = p :: ps → p.colors = col :: cs →
        handleSelectionChange companies sel .fabricCompanyId v =
          some { fabricCompanyId := v, productId := p.id, colorId := col.id }) ∧
      (∀ (sc : FabricCompany) (np : Product) (col : Color) (cs : List Color),
        companies.find? (fun x => x.id == sel.fabricCompanyId) = some sc →
        sc.products.find? (fun x => x.id == v) = some np →
        np.colors = col :: cs →
        handleSelectionChange companies sel .productId v =
          some { fabricCompanyId := sel.fabricCompanyId, productId := v,
                 colorId := col.id }) ∧
      handleSelectionChange companies sel .colorId v =
        some { sel with colorId := v } := by
  intro companies sel v
  refine ⟨?_, ?_, rfl⟩
  · intro c p ps col cs hc hp hcol
    simp [handleSelectionChange, hc, hp, hcol, setKey]
  · intro sc np col cs hsc hnp hcol
    simp [handleSelectionChange, hsc, hnp, hcol, setKey]

/-- C1 witness: with the seed roller-blind bucket, switching the
company to Eco Weaves resets product and color to its firsts, and
switching the product to Light-Filtering Linen resets the color to
Natural Linen. -/
theorem setField_cascade_witness :
    handleSelectionChange (MOCK_DATA.get .rollerBlinds)
        { fabricCompanyId := "rb-fc1", productId := "rb-p1", colorId := "rb-c1" }
        .fabricCompanyId "rb-fc2" =
      some { fabricCompanyId := "rb-fc2", productId := "rb-p3", colorId := "rb-c6" } ∧
    handleSelectionChange (MOCK_DATA.get .rollerBlinds)
        { fabricCompanyId := "rb-fc1", productId := "rb-p1", colorId := "rb-c1" }
        .productId "rb-p2" =
      some { fabricCompanyId := "rb-fc1", productId := "rb-p2", colorId := "rb-c4" } := by
  constructor
  · exact (setField_cascade (MOCK_DATA.get .rollerBlinds)
      { fabricCompanyId := "rb-fc1", productId := "rb-p1", colorId := "rb-c1" }
      "rb-fc2").1
      { id := "rb-fc2", name := "Eco Weaves",
        products :=
          [ { id := "rb-p3", name := "Recycled Fiber",
              colors :=
                [ { id := "rb-c6", name := "Earth Brown", hex := "#5C4033" },
                  { id := "rb-c7", name := "Forest Green", hex := "#228B22" } ] } ] }
      { id := "rb-p3", name := "Recycled Fiber",
        colors :=
          [ { id := "rb-c6", name := "Earth Brown", hex := "#5C4033" },
            { id := "rb-c7", name := "Forest Green", hex := "#228B22" } ] }
      []
      { id := "rb-c6", name := "Earth Brown", hex := "#5C4033" }
      [ { id := "rb-c7", name := "Forest Green", hex := "#228B22" } ]
      rfl rfl rfl
  · exact (setField_cascade (MOCK_DATA.get .rollerBlinds)
      { fabricCompanyId := "rb-fc1", productId := "rb-p1", colorId := "rb-c1" }
      "rb-p2").2.1
      { id := "rb-fc1", name := "Modern Shade Co.",
        products :=
          [ { id := "rb-p1", name := "Blackout Pro",
              colors :=
                [ { id := "rb-c1", name := "Midnight Blue", hex := "#003366" },
                  { id := "rb-c2", name := "Pure White", hex := "#FFFFFF" },
                  { id := "rb-c3", name := "Slate Grey", hex := "#708090" } ] },
            { id := "rb-p2", name := "Light-Filtering Linen",
              colors :=
                [ { id := "rb-c4", name := "Natural Linen", hex := "#FAF0E6" },
                  { id := "rb-c5", name := "Seafoam Green", hex := "#93E9BE" } ] } ] }
      { id := "rb-p2", name := "Light-Filtering Linen",
        colors :=
          [ { id := "rb-c4", name := "Natural Linen", hex := "#FAF0E6" },
            { id := "rb-c5", name := "Seafoam Green", hex := "#93E9BE" } ] }
      { id := "rb-c4", name := "Natural Linen", hex := "#FAF0E6" }
      [ { id := "rb-c5", name := "Seafoam Green", hex := "#93E9BE" } ]
      rfl rfl rfl

/-- C2: `initSelection` returns absent on an empty bucket, and on a
non-empty bucket whose first company has a first product with a first
color it returns exactly that index-0 path; on the seed catalog,
choosing Curtains yields company c-fc1, product c-p1 and color c-c1
(Ruby Red). -/
theorem initSelection_spec :
    (∀ (catalog : Catalog) (t : ProductType),
      catalog.get t = [] → initSelection catalog t = some none) ∧
    (∀ (catalog : Catalog) (t : ProductType) (c : FabricCompany)
        (rest : List FabricCompany) (p : Product) (ps : List Product)
        (col : Color) (cs : List Color),
      catalog.get t = c :: rest → c.products = p :: ps → p.colors = col :: cs →
      initSelection catalog t =
        some (some { fabricCompanyId := c.id, productId := p.id, colorId := col.id })) ∧
    initSelection MOCK_DATA .curtains =
      some (some { fabricCompanyId := "c-fc1", productId := "c-p1", colorId := "c-c1" }) := by
  refine ⟨?_, ?_, rfl⟩
  · intro catalog t h
    simp [initSelection, h]
  · intro catalog t c rest p ps col cs hb hp hc
    simp [initSelection, hb, hp, hc]

/-- C2 witness: an all-empty catalog yields an absent selection for
Curtains, and the seed catalog yields the index-0 path for Vertical
Blinds. -/
theorem initSelection_spec_witness :
    initSelection { verticalBlinds := [], rollerBlinds := [], curtains := [] } .curtains =
      some none ∧
    initSelection MOCK_DATA .verticalBlinds =
      some (some { fabricCompanyId := "vb-fc1", productId := "vb-p1", colorId := "vb-c1" }) := by
  constructor
  · exact initSelection_spec.1
      { verticalBlinds := [], rollerBlinds := [], curtains := [] } .curtains rfl
  · exact initSelection_spec.2.1 MOCK_DATA .verticalBlinds _ _ _ _ _ _ rfl rfl rfl

/-- C7: admin add-color with a company id or product id that does not
resolve inside the active bucket fails (the handler crashes before
`setFabricData`) and the stored catalog is unchanged — no partial
append; when both resolve, the new color is appended to exactly that
product's color list. -/
theorem addColor_spec :
    ∀ (cat : Catalog) (t : ProductType) (companyId productId nm hx newId : String),
      nm ≠ "" → hx ≠ "" →
      (((cat.get t).find? (fun c => c.id == companyId) = none →
          handleAddColor cat t companyId productId nm hx newId = none ∧
          addColorState cat t companyId productId nm hx newId = cat) ∧
        (∀ company : FabricCompany,
          (cat.get t).find? (fun c => c.id == companyId) = some company →
          company.products.find? (fun p => p.id == productId) = none →
          handleAddColor cat t companyId productId nm hx newId = none ∧
          addColorState cat t companyId productId nm hx newId = cat) ∧
        (∀ (company : FabricCompany) (prod : Product),
          (cat.get t).find? (fun c => c.id == companyId) = some company →
          company.products.find? (fun p => p.id == productId) = some prod →
          ∃ cat' : Catalog,
            handleAddColor cat t companyId productId nm hx newId = some cat' ∧
            addColorState cat t companyId productId nm hx newId = cat' ∧
            findProduct cat' t companyId productId =
              some { prod with
                     colors := prod.colors ++ [{ id := newId, name := nm, hex := hx }] })) := by
  intro cat t companyId productId nm hx newId hnm hhx
  refine ⟨?_, ?_, ?_⟩
  · intro hfc
    constructor
    · simp [handleAddColor, hnm, hhx, hfc]
    · simp [addColorState, handleAddColor, hnm, hhx, hfc]
  · intro company hfc hfp
    constructor
    · simp [handleAddColor, hnm, hhx, hfc, hfp]
    · simp [addColorState, handleAddColor, hnm, hhx, hfc, hfp]
  · intro company prod hfc hfp
    refine ⟨cat.set t
      (updateFirst (fun c => c.id == companyId)
        (fun c =>
          { c with
            products := updateFirst (fun p => p.id == productId)
              (fun p =>
                { p with colors := p.colors ++ [{ id := newId, name := nm, hex := hx }] })
              c.products })
        (cat.get t)), ?_, ?_, ?_⟩
    · simp [handleAddColor, hnm, hhx, hfc, hfp]
    · simp [addColorState, handleAddColor, hnm, hhx, hfc, hfp]
    · have hcomp := List.find?_some hfc
      have hprod := List.find?_some hfp
      unfold findProduct
      rw [Catalog.get_set]
      rw [find?_updateFirst _ _ _ _ hfc hcomp]
      exact find?_updateFirst _ _ _ _ hfp hprod

/-- C7 witness: on the seed catalog, adding to a bogus product id under
Drapery Dreams crashes and leaves the catalog untouched, while adding
Mystic Grey to Sheer Elegance appends it after Champagne Glow. -/
theorem addColor_spec_witness :
    (handleAddColor MOCK_DATA .curtains "c-fc1" "no-such-product" "Mystic Grey" "#888888"
        "c-999" = none ∧
      addColorState MOCK_DATA .curtains "c-fc1" "no-such-product" "Mystic Grey" "#888888"
        "c-999" = MOCK_DATA) ∧
    findProduct
        (addColorState MOCK_DATA .curtains "c-fc1" "c-p2" "Mystic Grey" "#888888" "c-999")
        .curtains "c-fc1" "c-p2" =
      some { id := "c-p2", name := "Sheer Elegance",
             colors :=
               [ { id := "c-c4", name := "Ivory Sheer", hex := "#FFFFF0" },
                 { id := "c-c5", name := "Champagne Glow", hex := "#F7E7CE" },
                 { id := "c-999", name := "Mystic Grey", hex := "#888888" } ] } := by
  constructor
  · exact (addColor_spec MOCK_DATA .curtains "c-fc1" "no-such-product" "Mystic Grey"
      "#888888" "c-999" (by decide) (by decide)).2.1
      { id := "c-fc1", name := "Drapery Dreams",
        products :=
          [ { id := "c-p1", name := "Velvet Luxe",
              colors :=
                [ { id := "c-c1", name := "Ruby Red", hex := "#9B111E" },
                  { id := "c-c2", name := "Emerald Green", hex := "#50C878" },
                  { id := "c-c3", name := "Royal Purple", hex := "#7851A9" } ] },
            { id := "c-p2", name := "Sheer Elegance",
              colors :=
                [ { id := "c-c4", name := "Ivory Sheer", hex := "#FFFFF0" },
                  { id := "c-c5", name := "Champagne Glow", hex := "#F7E7CE" } ] } ] }
      rfl rfl
  · obtain ⟨cat', _, hstate, hfind⟩ :=
      (addColor_spec MOCK_DATA .curtains "c-fc1" "c-p2" "Mystic Grey"
        "#888888" "c-999" (by decide) (by decide)).2.2
      { id := "c-fc1", name := "Drapery Dreams",
        products :=
          [ { id := "c-p1", name := "Velvet Luxe",
              colors :=
                [ { id := "c-c1", name := "Ruby Red", hex := "#9B111E" },
                  { id := "c-c2", name := "Emerald Green", hex := "#50C878" },
                  { id := "c-c3", name := "Royal Purple", hex := "#7851A9" } ] },
            { id := "c-p2", name := "Sheer Elegance",
              colors :=
                [ { id := "c-c4", name := "Ivory Sheer", hex := "#FFFFF0" },
                  { id := "c-c5", name := "Champagne Glow", hex := "#F7E7CE" } ] } ] }
      { id := "c-p2", name := "Sheer Elegance",
        colors :=
          [ { id := "c-c4", name := "Ivory Sheer", hex := "#FFFFF0" },
            { id := "c-c5", name := "Champagne Glow", hex := "#F7E7CE" } ] }
      rfl rfl
    rw [hstate]
    exact hfind

/-- C8 counterexample: with the image, product type and a selection all
present but the selection's ids resolving to nothing in the catalog,
the manual run is not a silent no-op: it issues no request, yet it sets
the error message and moves the step to configure, so the Session is
changed. -/
theorem manual_noop_cex :
    (runManualSimulation
        { baseSession with
          manualSelection :=
            some { fabricCompanyId := "ghost", productId := "ghost", colorId := "ghost" } }
        (Except.ok "d") (Except.ok "n")).requests = [] ∧
    (runManualSimulation
        { baseSession with
          manualSelection :=
            some { fabricCompanyId := "ghost", productId := "ghost", colorId := "ghost" } }
        (Except.ok "d") (Except.ok "n")).finalSession.error =
      some "Could not find product details." ∧
    (runManualSimulation
        { baseSession with
          manualSelection :=
            some { fabricCompanyId := "ghost", productId := "ghost", colorId := "ghost" } }
        (Except.ok "d") (Except.ok "n")).finalSession ≠
      { baseSession with
        manualSelection :=
          some { fabricCompanyId := "ghost", productId := "ghost", colorId := "ghost" } } := by
  refine ⟨by decide, by decide, by decide⟩

/-- C8 amended: when the uploaded image, the product type or the manual
selection is absent the run is a silent no-op (Session unchanged, no
request, no stage label); when all three are present but the selection
does not resolve to a concrete product and color, the run still issues
no remote request but sets the error "Could not find product details.",
clears the loading flag and the stored result, and routes the step to
configure. -/
theorem manual_preconditions_spec :
    (∀ (s : Session) (dayR nightR : Except String String),
      s.uploadedFile = none ∨ s.productType = none ∨ s.manualSelection = none →
      runManualSimulation s dayR nightR =
        { finalSession := s, requests := [], stages := [] }) ∧
    (∀ (s : Session) (dayR nightR : Except String String)
        (uf : UploadedFile) (pt : ProductType) (sel : ManualSelection),
      s.uploadedFile = some uf → s.productType = some pt →
      s.manualSelection = some sel →
      lookupProduct s pt sel = none ∨ lookupColor s pt sel = none →
      runManualSimulation s dayR nightR =
        { finalSession :=
            { s with
              simulationResult := none
              error := some "Could not find product details."
              isLoading := false
              step := .configure }
          requests := []
          stages := [] }) := by
  constructor
  · intro s dayR nightR h
    obtain ⟨st, uf, pt, sm, ms, sr, il, lt, er, arv, fd, cs⟩ := s
    cases uf <;> cases pt <;> cases ms
    all_goals first
      | rfl
      | (rcases h with h | h | h <;> simp at h)
  · intro s dayR nightR uf pt sel huf hpt hsel h
    have hcol : lookupColor s pt sel = none := by
      rcases h with h | h
      · simp [lookupColor, h]
      · exact h
    obtain ⟨st, uf0, pt0, sm, ms, sr, il, lt, er, arv, fd, cs⟩ := s
    simp only at huf hpt hsel
    subst huf; subst hpt; subst hsel
    simp only [runManualSimulation]
    rw [hcol]

/-- C8 witness: a session missing the uploaded image silently does
nothing, and the ghost-selection session from the counterexample takes
the validation-error route with no request issued. -/
theorem manual_preconditions_witness :
    runManualSimulation { baseSession with uploadedFile := none }
        (Except.ok "d") (Except.ok "n") =
      { finalSession := { baseSession with uploadedFile := none },
        requests := [], stages := [] } ∧
    runManualSimulation
        { baseSession with
          manualSelection :=
            some { fabricCompanyId := "ghost", productId := "ghost", colorId := "ghost" } }
        (Except.ok "d") (Except.ok "n") =
      { finalSession :=
          { baseSession with
            manualSelection :=
              some { fabricCompanyId := "ghost", productId := "ghost", colorId := "ghost" }
            simulationResult := none
            error := some "Could not find product details."
            isLoading := false
            step := .configure }
        requests := []
        stages := [] } := by
  constructor
  · exact manual_preconditions_spec.1 { baseSession with uploadedFile := none }
      (Except.ok "d") (Except.ok "n") (Or.inl rfl)
  · exact manual_preconditions_spec.2
      { baseSession with
        manualSelection :=
          some { fabricCompanyId := "ghost", productId := "ghost", colorId := "ghost" } }
      (Except.ok "d") (Except.ok "n")
      { base64 := "QkFTRTY0", name := "window.jpg", mimeType := "image/jpeg" }
      .curtains
      { fabricCompanyId := "ghost", productId := "ghost", colorId := "ghost" }
      rfl rfl rfl (Or.inl (by decide))

/-- C4: in a manual run where the day composite succeeds and the night
composite fails, exactly one day and one night request were issued in
that order, the result stays unset, the error is the failure's message
and the step returns to configure; and every oracle failure in either
run kind aborts the remaining calls, stores the failure's message and
routes to configure. -/
theorem run_failure_routing :
    (∀ (s : Session) (dayImg msg : String) (uf : UploadedFile) (pt : ProductType)
        (sel : ManualSelection) (prod : Product) (col : Color),
      s.uploadedFile = some uf → s.productType = some pt → s.manualSelection = some sel →
      lookupProduct s pt sel = some prod → lookupColor s pt sel = some col →
      (runManualSimulation s (.ok dayImg) (.error msg)).requests =
        [.composite true col.name prod.name, .composite false col.name prod.name] ∧
      (runManualSimulation s (.ok dayImg) (.error msg)).finalSession.simulationResult =
        none ∧
      (runManualSimulation s (.ok dayImg) (.error msg)).finalSession.error = some msg ∧
      (runManualSimulation s (.ok dayImg) (.error msg)).finalSession.step = .configure) ∧
    (∀ (s : Session) (msg : String) (nightR : Except String String) (uf : UploadedFile)
        (pt : ProductType) (sel : ManualSelection) (prod : Product) (col : Color),
      s.uploadedFile = some uf → s.productType = some pt → s.manualSelection = some sel →
      lookupProduct s pt sel = some prod → lookupColor s pt sel = some col →
      (runManualSimulation s (.error msg) nightR).requests =
        [.composite true col.name prod.name] ∧
      (runManualSimulation s (.error msg) nightR).finalSession.simulationResult = none ∧
      (runManualSimulation s (.error msg) nightR).finalSession.error = some msg ∧
      (runManualSimulation s (.error msg) nightR).finalSession.step = .configure) ∧
    (∀ (s : Session) (msg : String) (dayR nightR : Except String String)
        (uf : UploadedFile) (pt : ProductType),
      s.uploadedFile = some uf → s.productType = some pt →
      (runAutoSimulation s (.error msg) dayR nightR).requests = [.recommendation] ∧
      (runAutoSimulation s (.error msg) dayR nightR).finalSession.simulationResult =
        none ∧
      (runAutoSimulation s (.error msg) dayR nightR).finalSession.error = some msg ∧
      (runAutoSimulation s (.error msg) dayR nightR).finalSession.step = .configure) ∧
    (∀ (s : Session) (recText msg : String) (nightR : Except String String)
        (uf : UploadedFile) (pt : ProductType),
      s.uploadedFile = some uf → s.productType = some pt →
      (runAutoSimulation s (.ok recText) (.error msg) nightR).requests =
        [.recommendation, .composite true "AI suggested color" "AI suggested style"] ∧
      (runAutoSimulation s (.ok recText) (.error msg) nightR).finalSession.simulationResult =
        none ∧
      (runAutoSimulation s (.ok recText) (.error msg) nightR).finalSession.error =
        some msg ∧
      (runAutoSimulation s (.ok recText) (.error msg) nightR).finalSession.step =
        .configure) ∧
    (∀ (s : Session) (recText dayImg msg : String) (uf : UploadedFile)
        (pt : ProductType),
      s.uploadedFile = some uf → s.productType = some pt →
      (runAutoSimulation s (.ok recText) (.ok dayImg) (.error msg)).requests =
        [.recommendation, .composite true "AI suggested color" "AI suggested style",
         .composite false "AI suggested color" "AI suggested style"] ∧
      (runAutoSimulation s (.ok recText) (.ok dayImg)
          (.error msg)).finalSession.simulationResult = none ∧
      (runAutoSimulation s (.ok recText) (.ok dayImg) (.error msg)).finalSession.error =
        some msg ∧
      (runAutoSimulation s (.ok recText) (.ok dayImg) (.error msg)).finalSession.step =
        .configure) := by
  refine ⟨?_, ?_, ?_, ?_, ?_⟩
  · intro s dayImg msg uf pt sel prod col huf hpt hsel hp hc
    simp [runManualSimulation, huf, hpt, hsel, hp, hc]
  · intro s msg nightR uf pt sel prod col huf hpt hsel hp hc
    simp [runManualSimulation, huf, hpt, hsel, hp, hc]
  · intro s msg dayR nightR uf pt huf hpt
    simp [runAutoSimulation, huf, hpt]
  · intro s recText msg nightR uf pt huf hpt
    simp [runAutoSimulation, huf, hpt]
  · intro s recText dayImg msg uf pt huf hpt
    simp [runAutoSimulation, huf, hpt]

/-- C4 witness: the manual night-failure scenario on the concrete base
session issues exactly the Ruby Red Velvet Luxe day and night
composites, leaves no result, stores the night failure message and
returns to configure. -/
theorem run_failure_routing_witness :
    (runManualSimulation baseSession (.ok "D") (.error "night failed")).requests =
      [.composite true "Ruby Red" "Velvet Luxe",
       .composite false "Ruby Red" "Velvet Luxe"] ∧
    (runManualSimulation baseSession (.ok "D")
        (.error "night failed")).finalSession.simulationResult = none ∧
    (runManualSimulation baseSession (.ok "D")
        (.error "night failed")).finalSession.error = some "night failed" ∧
    (runManualSimulation baseSession (.ok "D")
        (.error "night failed")).finalSession.step = .configure :=
  run_failure_routing.1 baseSession "D" "night failed"
    { base64 := "QkFTRTY0", name := "window.jpg", mimeType := "image/jpeg" }
    .curtains
    { fabricCompanyId := "c-fc1", productId := "c-p1", colorId := "c-c1" }
    { id := "c-p1", name := "Velvet Luxe",
      colors :=
        [ { id := "c-c1", name := "Ruby Red", hex := "#9B111E" },
          { id := "c-c2", name := "Emerald Green", hex := "#50C878" },
          { id := "c-c3", name := "Royal Purple", hex := "#7851A9" } ] }
    { id := "c-c1", name := "Ruby Red", hex := "#9B111E" }
    rfl rfl rfl rfl rfl

/-- C5: the runs are strictly sequential — a night composite request is
only ever issued after the day request resolved successfully, a day
request in an automatic run only after the recommendation resolved, and
an automatic run's request list always begins with the recommendation;
in an automatic run whose recommendation succeeds but whose day call
fails, the stage labels are exactly the recommendation label then the
day label, no night request is issued, the result screen is never
reached and the error is the day call's failure message. -/
theorem run_sequencing :
    (∀ (s : Session) (dayR nightR : Except String String),
      hasNightRequest (runManualSimulation s dayR nightR).requests = true →
      hasDayRequest (runManualSimulation s dayR nightR).requests = true ∧
      ∃ img, dayR = .ok img) ∧
    (∀ (s : Session) (recR dayR nightR : Except String String),
      hasNightRequest (runAutoSimulation s recR dayR nightR).requests = true →
      hasDayRequest (runAutoSimulation s recR dayR nightR).requests = true ∧
      (∃ img, dayR = .ok img) ∧ ∃ txt, recR = .ok txt) ∧
    (∀ (s : Session) (recR dayR nightR : Except String String),
      hasDayRequest (runAutoSimulation s recR dayR nightR).requests = true →
      ∃ txt, recR = .ok txt) ∧
    (∀ (s : Session) (recR dayR nightR : Except String String),
      (runAutoSimulation s recR dayR nightR).requests = [] ∨
      (runAutoSimulation s recR dayR nightR).requests.head? = some .recommendation) ∧
    (∀ (s : Session) (recText msg : String) (nightR : Except String String)
        (uf : UploadedFile) (pt : ProductType),
      s.uploadedFile = some uf → s.productType = some pt →
      (runAutoSimulation s (.ok recText) (.error msg) nightR).stages =
        ["Generating AI recommendation...", "Simulating daytime view..."] ∧
      hasNightRequest (runAutoSimulation s (.ok recText) (.error msg) nightR).requests =
        false ∧
      (runAutoSimulation s (.ok recText) (.error msg) nightR).finalSession.step =
        .configure ∧
      (runAutoSimulation s (.ok recText) (.error msg) nightR).finalSession.step ≠
        .result ∧
      (runAutoSimulation s (.ok recText) (.error msg) nightR).finalSession.error =
        some msg) := by
  refine ⟨?_, ?_, ?_, ?_, ?_⟩
  · intro s dayR nightR h
    rcases huf : s.uploadedFile with _ | uf
    · simp [runManualSimulation, huf, hasNightRequest] at h
    rcases hpt : s.productType with _ | pt
    · simp [runManualSimulation, huf, hpt, hasNightRequest] at h
    rcases hms : s.manualSelection with _ | sel
    · simp [runManualSimulation, huf, hpt, hms, hasNightRequest] at h
    rcases hc : lookupColor s pt sel with _ | col
    · simp [runManualSimulation, huf, hpt, hms, hc, hasNightRequest] at h
    rcases hp : lookupProduct s pt sel with _ | prod
    · simp [runManualSimulation, huf, hpt, hms, hc, hp, hasNightRequest] at h
    cases dayR with
    | error m => simp [runManualSimulation, huf, hpt, hms, hc, hp, hasNightRequest] at h
    | ok img =>
      refine ⟨?_, img, rfl⟩
      cases nightR <;>
        simp [runManualSimulation, huf, hpt, hms, hc, hp, hasDayRequest]
  · intro s recR dayR nightR h
    rcases huf : s.uploadedFile with _ | uf
    · simp [runAutoSimulation, huf, hasNightRequest] at h
    rcases hpt : s.productType with _ | pt
    · simp [runAutoSimulation, huf, hpt, hasNightRequest] at h
    cases recR with
    | error m => simp [runAutoSimulation, huf, hpt, hasNightRequest] at h
    | ok txt =>
      cases dayR with
      | error m => simp [runAutoSimulation, huf, hpt, hasNightRequest] at h
      | ok img =>
        refine ⟨?_, ⟨img, rfl⟩, txt, rfl⟩
        cases nightR <;> simp [runAutoSimulation, huf, hpt, hasDayRequest]
  · intro s recR dayR nightR h
    rcases huf : s.uploadedFile with _ | uf
    · simp [runAutoSimulation, huf, hasDayRequest] at h
    rcases hpt : s.productType with _ | pt
    · simp [runAutoSimulation, huf, hpt, hasDayRequest] at h
    cases recR with
    | error m => simp [runAutoSimulation, huf, hpt, hasDayRequest] at h
    | ok txt => exact ⟨txt, rfl⟩
  · intro s recR dayR nightR
    rcases huf : s.uploadedFile with _ | uf
    · exact Or.inl (by simp [runAutoSimulation, huf])
    rcases hpt : s.productType with _ | pt
    · exact Or.inl (by simp [runAutoSimulation, huf, hpt])
    cases recR <;> cases dayR <;> cases nightR <;>
      exact Or.inr (by simp [runAutoSimulation, huf, hpt])
  · intro s recText msg nightR uf pt huf hpt
    simp [runAutoSimulation, huf, hpt, hasNightRequest]

/-- C5 witness: on the concrete base session, an automatic run whose
recommendation succeeds and whose day composite fails shows the two
stage labels in order, issues no night request and ends on configure
with the day failure message; and a manual run that did issue a night
request had a successful day call. -/
theorem run_sequencing_witness :
    (runAutoSimulation baseSession (.ok "advice") (.error "day failed")
        (.ok "N")).stages =
      ["Generating AI recommendation...", "Simulating daytime view..."] ∧
    hasNightRequest (runAutoSimulation baseSession (.ok "advice") (.error "day failed")
        (.ok "N")).requests = false ∧
    (runAutoSimulation baseSession (.ok "advice") (.error "day failed")
        (.ok "N")).finalSession.error = some "day failed" ∧
    (hasNightRequest (runManualSimulation baseSession (.ok "D") (.ok "N")).requests =
        true →
      ∃ img, (Except.ok "D" : Except String String) = .ok img) := by
  refine ⟨?_, ?_, ?_, ?_⟩
  · exact (run_sequencing.2.2.2.2 baseSession "advice" "day failed" (.ok "N")
      { base64 := "QkFTRTY0", name := "window.jpg", mimeType := "image/jpeg" }
      .curtains rfl rfl).1
  · exact (run_sequencing.2.2.2.2 baseSession "advice" "day failed" (.ok "N")
      { base64 := "QkFTRTY0", name := "window.jpg", mimeType := "image/jpeg" }
      .curtains rfl rfl).2.1
  · exact (run_sequencing.2.2.2.2 baseSession "advice" "day failed" (.ok "N")
      { base64 := "QkFTRTY0", name := "window.jpg", mimeType := "image/jpeg" }
      .curtains rfl rfl).2.2.2.2
  · intro h
    exact (run_sequencing.1 baseSession (.ok "D") (.ok "N") h).2

/-- C9 counterexample: two failures of the claim.  First, a successful
manual run on the base session finishes (the step is result and the
loading flag is off) yet the loading-stage label is not cleared — it
still holds the night stage text.  Second, a reset transition can occur
during a run after all: on a mid-run session (loading flag true, step
simulate) the always-rendered header logo's click performs the full
reset, returning the step to upload and clearing the selection. -/
theorem loading_label_cex :
    (runManualSimulation baseSession (.ok "D") (.ok "N")).finalSession.step = .result ∧
    (runManualSimulation baseSession (.ok "D") (.ok "N")).finalSession.isLoading =
      false ∧
    (runManualSimulation baseSession (.ok "D") (.ok "N")).finalSession.loadingText =
      "Simulating nighttime view..." ∧
    (runManualSimulation baseSession (.ok "D") (.ok "N")).finalSession.loadingText ≠
      "" ∧
    ({ baseSession with
        isLoading := true
        step := .simulate
        loadingText := "Simulating daytime view..." } : Session).isLoading = true ∧
    (logoClick { baseSession with
        isLoading := true
        step := .simulate
        loadingText := "Simulating daytime view..." }).step = .upload ∧
    (logoClick { baseSession with
        isLoading := true
        step := .simulate
        loadingText := "Simulating daytime view..." }).manualSelection = none ∧
    (logoClick { baseSession with
        isLoading := true
        step := .simulate
        loadingText := "Simulating daytime view..." }).uploadedFile = none := by
  refine ⟨by decide, by decide, by decide, by decide, by decide, by decide, by decide,
    by decide⟩

/-- C9 amended: whenever a started run finishes — success or failure,
manual or automatic — the loading flag is cleared (the stage label is
retained in state but only rendered while loading); while the loading
flag is true neither the back button nor the reset button is shown, but
this does not rule out every reset transition during a run: the header
logo is rendered in every state and its click performs the full reset
regardless of the loading flag, so a reset can still occur while a run
is in flight. -/
theorem loading_gating_spec :
    (∀ (s : Session) (dayR nightR : Except String String) (uf : UploadedFile)
        (pt : ProductType) (sel : ManualSelection),
      s.uploadedFile = some uf → s.productType = some pt →
      s.manualSelection = some sel →
      (runManualSimulation s dayR nightR).finalSession.isLoading = false) ∧
    (∀ (s : Session) (recR dayR nightR : Except String String) (uf : UploadedFile)
        (pt : ProductType),
      s.uploadedFile = some uf → s.productType = some pt →
      (runAutoSimulation s recR dayR nightR).finalSession.isLoading = false) ∧
    (∀ s : Session, s.isLoading = true →
      shouldShowBackButton s = false ∧ shouldShowResetButton s = false) ∧
    (∀ s : Session, s.isLoading = true →
      (logoClick s).step = .upload ∧ (logoClick s).uploadedFile = none ∧
      (logoClick s).manualSelection = none ∧ (logoClick s).simulationResult = none ∧
      (logoClick s).isLoading = false) := by
  refine ⟨?_, ?_, ?_, ?_⟩
  · intro s dayR nightR uf pt sel huf hpt hsel
    rcases hc : lookupColor s pt sel with _ | col
    · simp [runManualSimulation, huf, hpt, hsel, hc]
    rcases hp : lookupProduct s pt sel with _ | prod
    · simp [runManualSimulation, huf, hpt, hsel, hc, hp]
    cases dayR with
    | error m => simp [runManualSimulation, huf, hpt, hsel, hc, hp]
    | ok img =>
      cases nightR <;> simp [runManualSimulation, huf, hpt, hsel, hc, hp]
  · intro s recR dayR nightR uf pt huf hpt
    cases recR with
    | error m => simp [runAutoSimulation, huf, hpt]
    | ok txt =>
      cases dayR with
      | error m => simp [runAutoSimulation, huf, hpt]
      | ok img => cases nightR <;> simp [runAutoSimulation, huf, hpt]
  · intro s h
    constructor
    · simp [shouldShowBackButton, h]
    · simp [shouldShowResetButton, h]
  · intro s h
    exact ⟨rfl, rfl, rfl, rfl, rfl⟩

/-- C9 witness: a failed auto run on the base session leaves the
loading flag off, a loading session shows neither button, and the logo
click on that loading session resets the step to upload. -/
theorem loading_gating_witness :
    (runAutoSimulation baseSession (.error "boom") (.ok "D")
        (.ok "N")).finalSession.isLoading = false ∧
    (runManualSimulation baseSession (.ok "D") (.error "boom")).finalSession.isLoading =
      false ∧
    shouldShowBackButton { baseSession with isLoading := true } = false ∧
    shouldShowResetButton { baseSession with isLoading := true } = false ∧
    (logoClick { baseSession with isLoading := true }).step = .upload := by
  refine ⟨?_, ?_, ?_, ?_, ?_⟩
  · exact loading_gating_spec.2.1 baseSession (.error "boom") (.ok "D") (.ok "N")
      { base64 := "QkFTRTY0", name := "window.jpg", mimeType := "image/jpeg" }
      .curtains rfl rfl
  · exact loading_gating_spec.1 baseSession (.ok "D") (.error "boom")
      { base64 := "QkFTRTY0", name := "window.jpg", mimeType := "image/jpeg" }
      .curtains
      { fabricCompanyId := "c-fc1", productId := "c-p1", colorId := "c-c1" }
      rfl rfl rfl
  · exact (loading_gating_spec.2.2.1 { baseSession with isLoading := true } rfl).1
  · exact (loading_gating_spec.2.2.1 { baseSession with isLoading := true } rfl).2
  · exact (loading_gating_spec.2.2.2 { baseSession with isLoading := true } rfl).1

end WindowSim
